import Mathlib

/-!
Shallow embedding of the dataset-loading glue of the panoptic-reconstruction
repository: `lib/data/datasets/front3d.py` (the `Front3D` dataset class) and
`lib/config/path_catalog.py` (the `DatasetCatalog` static table).

Modelling conventions:
* The sparse distance-field / segmentation codecs, PIL / pyexr / numpy readers
  and the 2D/3D transform primitives are external collaborators of the
  repository (out of scope per the specification, "treated as black-box
  functions").  They are embedded freely: every decode and every primitive
  transform application is a constructor of the `Val` trace type, so two
  values are equal exactly when the code builds them by the same chain of
  external calls from the same inputs.
* Python exceptions are modelled with `Except PyErr`.
* `self.fields` can be left unassigned by `__init__`; attribute state is
  modelled with `PyAttr`.
-/

/-- Python error outcomes relevant to the embedded code. -/
inductive PyErr where
  | attributeError
  | typeError
  | keyError (key : String)
  | indexError
  deriving Repr, DecidableEq

/-- A Python instance attribute: either never assigned (`unset`, so that
reading it raises `AttributeError`) or assigned a value. -/
inductive PyAttr (α : Type) where
  | unset
  | set (v : α)
  deriving Repr, DecidableEq

/-- Primitive 2D/3D transform objects instantiated by
`Front3D.define_transformations` (from `lib.data.transforms2d` /
`lib.data.transforms3d`, external black boxes). Parameters mirror the
constructor arguments in the source. -/
inductive TPrim where
  | toTensor2d
  | normalize (mean std : List Rat)
  | toImage
  | resize2d (size : Nat × Nat) (interpolation : String)
  | toNumpyArray
  | toTensorFromNumpy
  | toDepthMap (intrinsic : String)
  | segmentationToMasks (size : Nat × Nat) (minPixels maxInstances : Nat)
      (flag : Bool) (stuffClasses : List Nat)
  | toTensor3d (dtype : String)
  | unsqueeze (dim : Nat)
  | toTDF (truncation : Rat)
  | resizeTrilinear (scale : Rat)
  | toBinaryMask (threshold : Rat)
  | mapping (ignoreValues : List Nat)
  | resizeMax (a b c : Nat)
  deriving Repr, DecidableEq

/-- A transform-table entry: a bare transform object or a `Compose` of
primitives (in this source `Compose` is never nested). -/
inductive T where
  | prim (p : TPrim)
  | compose (ps : List TPrim)
  deriving Repr, DecidableEq

/-- Trace values: tensors / images / records produced by the external
decoders and transform primitives, embedded freely. -/
inductive Val where
  | pyInt (n : Nat)
  | pyStr (s : String)
  | image (path : String)
  | exrFlipped (path : String)
  | npz (path : String)
  | sdf (path : String) (fill : Rat)
  | semDense (path : String) (maxInstanceId ignoreValue : Nat)
  | instDense (path : String) (maxInstanceId ignoreValue : Nat)
  | boolOf (v : Val)
  | clone (v : Val)
  | subfield (v : Val) (name : String)
  | app (t : TPrim) (mappingArg : Option Val) (v : Val)

/-- Application of a primitive transform.  The runtime keyword argument
`{"mapping": ...}` (passed only in the `instance3d` branch) is forwarded to
the `Mapping` primitive, the only one that consumes it. -/
def applyPrim (m : Option Val) (p : TPrim) (v : Val) : Val :=
  match p with
  | TPrim.mapping ig => Val.app (TPrim.mapping ig) m v
  | p => Val.app p none v

/-- Application of a transform-table entry: a bare primitive is called
directly, a `Compose` applies its members in sequence. -/
def applyT (m : Option Val) : T → Val → Val
  | T.prim p, v => applyPrim m p v
  | T.compose ps, v => ps.foldl (fun acc p => applyPrim m p acc) v

/-- Python dict lookup `self.transforms[key]`: `KeyError` when absent. -/
def getTransform (table : List (String × T)) (key : String) : Except PyErr T :=
  match table.find? (fun p => p.1 = key) with
  | some p => Except.ok p.2
  | none => Except.error (PyErr.keyError key)

/-- Modelled from the spec: `lib.structures.FieldList` (repository code not
under `src/`) is "a mapping from field name (string) to value", created with
an image size and a mode, with `add_field` and `get_field`; `get_field` on a
missing field is a missing-field lookup failure.  Newest binding wins. -/
structure FieldList where
  imageSize : Nat × Nat
  mode : String
  fields : List (String × Val)

/-- Fresh record as built at the top of `__getitem__`:
`FieldList(self.image_size, mode="xyxy")`. -/
def FieldList.empty (sz : Nat × Nat) : FieldList := ⟨sz, "xyxy", []⟩

/-- Modelled from the spec: `FieldList.add_field` binds a name to a value
(each name is written at most once per retrieval in this code). -/
def FieldList.addField (fl : FieldList) (k : String) (v : Val) : FieldList :=
  { fl with fields := (k, v) :: fl.fields }

/-- Modelled from the spec: `FieldList.get_field`; `none` models the
missing-field lookup failure. -/
def FieldList.getField (fl : FieldList) (k : String) : Option Val :=
  (fl.fields.find? (fun p => p.1 = k)).map (fun p => p.2)

/-- Modelled from the spec: the record produced by the `instance2d`
transform chain (`SegmentationToMasks`) carries an `instance_locations`
sub-field; `v.get_field(name)` on such a record yields that sub-field. -/
def getSubfield (v : Val) (name : String) : Val := Val.subfield v name

/-- Geometric configuration constants read once from the external `config`
collaborator by `Front3D.__init__`. -/
structure Config where
  intrinsic : String
  voxel_size : Rat
  depth_min : Rat
  depth_max : Rat
  grid_dimensions : List Nat
  truncation : Rat
  max_instances : Nat
  min_pixels : Nat
  deriving Repr, DecidableEq

/-- ImageNet normalization statistics (`_imagenet_stats` in the source). -/
def imagenetMean : List Rat := [485/1000, 456/1000, 406/1000]

/-- ImageNet normalization statistics (`_imagenet_stats` in the source). -/
def imagenetStd : List Rat := [229/1000, 224/1000, 225/1000]

/-- `Front3D.define_transformations`, entry for entry in source order.
`__init__` fixes `image_size = (320, 240)` and
`depth_image_size = (160, 120)`; the remaining constants come from `cfg`.
Note that no `"weighting"` key is ever installed. -/
def define_transformations (cfg : Config) : List (String × T) :=
  [("color", T.compose [TPrim.toTensor2d, TPrim.normalize imagenetMean imagenetStd]),
   ("depth", T.compose [TPrim.toImage, TPrim.resize2d (160, 120) "NEAREST",
      TPrim.toNumpyArray, TPrim.toTensorFromNumpy, TPrim.toDepthMap cfg.intrinsic]),
   ("instance2d", T.compose [TPrim.segmentationToMasks (320, 240) cfg.min_pixels
      cfg.max_instances true [0, 10, 11, 12]]),
   ("geometry", T.compose [TPrim.toTensor3d "float", TPrim.unsqueeze 0, TPrim.toTDF 12]),
   ("geometry_truncate", T.prim (TPrim.toTDF cfg.truncation)),
   ("occupancy_64", T.compose [TPrim.resizeTrilinear (1/4), TPrim.toBinaryMask 8]),
   ("occupancy_128", T.compose [TPrim.resizeTrilinear (1/2), TPrim.toBinaryMask 6]),
   ("occupancy_256", T.prim (TPrim.toBinaryMask cfg.truncation)),
   ("weighting3d_64", T.prim (TPrim.resizeTrilinear (1/4))),
   ("weighting3d_128", T.prim (TPrim.resizeTrilinear (1/2))),
   ("semantic3d", T.compose [TPrim.toTensor3d "int", TPrim.unsqueeze 0]),
   ("instance3d", T.compose [TPrim.toTensor3d "int", TPrim.unsqueeze 0, TPrim.mapping [0]]),
   ("segmentation3d_64", T.compose [TPrim.resizeMax 8 4 2]),
   ("segmentation3d_128", T.compose [TPrim.resizeMax 4 2 1])]

/-- Python whitespace class used by `str.strip` (space, tab, newline,
carriage return, vertical tab, form feed). -/
def isPySpace (c : Char) : Bool :=
  c = ' ' || c = '\t' || c = '\n' || c = '\r' || c = Char.ofNat 11 || c = Char.ofNat 12

/-- Python `line.strip()`: drop leading and trailing whitespace.  Modelled
on the character list so that it evaluates inside the kernel. -/
def pyStrip (s : String) : String :=
  String.mk (((s.data.dropWhile isPySpace).reverse.dropWhile isPySpace).reverse)

/-- Python `s.split(sep)` for a one-character separator, on the character
list; the result is never empty. -/
def splitCharList (sep : Char) : List Char → List (List Char)
  | [] => [[]]
  | c :: cs =>
    if c = sep then [] :: splitCharList sep cs
    else
      match splitCharList sep cs with
      | [] => [[c]]
      | g :: gs => (c :: g) :: gs

/-- Python `s.split(sep)` for a one-character separator. -/
def pySplit (s : String) (sep : Char) : List String :=
  (splitCharList sep s.data).map (fun cs => String.mk cs)

/-- `Front3D.load_and_filter_file_list`: read all lines, strip each. -/
def load_and_filter_file_list (content : List String) : List String :=
  content.map (fun line => pyStrip line)

/-- Python slice `l[:n]` with `n` an optional integer (`None` is identity;
a negative bound counts from the end, clamped at zero). -/
def pySliceTo (l : List α) : Option Int → List α
  | none => l
  | some k => if 0 ≤ k then l.take k.toNat else l.take (l.length - (-k).toNat)

/-- Swap the elements at two positions of a list (no-op when either index is
out of range), as Python's `x[i], x[j] = x[j], x[i]`. -/
def swapAt (l : List α) (i j : Nat) : List α :=
  match l.get? i, l.get? j with
  | some a, some b => (l.set i b).set j a
  | _, _ => l

/-- Modelled from the spec: "randomizes order using the process's default
randomness source" (`random.shuffle`, the CPython Fisher-Yates loop:
`for i in reversed(range(1, len(x))): j = randbelow(i + 1); swap`).
The randomness source is the oracle `rand`, reduced mod `i + 1` so that
`j ≤ i` as `randbelow` guarantees. -/
def shuffleLoop (rand : Nat → Nat) : Nat → List α → List α
  | 0, l => l
  | i + 1, l => shuffleLoop rand i (swapAt l (i + 1) (rand (i + 1) % (i + 2)))

/-- Modelled from the spec: `random.shuffle(self.samples)` with random
oracle `rand`. -/
def pyShuffle (rand : Nat → Nat) (l : List α) : List α :=
  shuffleLoop rand (l.length - 1) l

/-- State of a `Front3D` instance: the attributes `__init__` writes.
`fields` is a `PyAttr` because the source only assigns it in one branch. -/
structure Front3DState where
  dataset_root_path : String
  samples : List String
  fields : PyAttr (Option (List String))
  image_size : Nat × Nat
  depth_image_size : Nat × Nat
  intrinsic : String
  voxel_size : Rat
  depth_min : Rat
  depth_max : Rat
  grid_dimensions : List Nat
  truncation : Rat
  max_instances : Nat
  num_min_instance_pixels : Nat
  stuff_classes : List Nat
  frustum_mask : Val
  transforms : List (String × T)

/-- `Front3D.load_frustum_mask`: decode the shared frustum-mask file with
fill value `0.0` and convert to a boolean tensor. -/
def load_frustum_mask (root : String) : Val :=
  Val.boolOf (Val.sdf (root ++ "/" ++ "frustum_mask.npz") 0)

/-- `Front3D.__init__`.  `file_list_lines` are the lines of the file-list
file (the file read is external I/O); `rand` is the randomness oracle used
when `shuffle` is set.  Note the source assigns `self.fields` only when the
`fields` argument is `None`. -/
def Front3D.init (file_list_lines : List String) (dataset_root_path : String)
    (fields : Option (List String)) (num_samples : Option Int) (shuffle : Bool)
    (rand : Nat → Nat) (cfg : Config) : Front3DState :=
  let samples0 := load_and_filter_file_list file_list_lines
  let samples1 := if shuffle then pyShuffle rand samples0 else samples0
  let samples2 := pySliceTo samples1 num_samples
  { dataset_root_path := dataset_root_path
    samples := samples2
    fields := match fields with
      | none => PyAttr.set none
      | some _ => PyAttr.unset
    image_size := (320, 240)
    depth_image_size := (160, 120)
    intrinsic := cfg.intrinsic
    voxel_size := cfg.voxel_size
    depth_min := cfg.depth_min
    depth_max := cfg.depth_max
    grid_dimensions := cfg.grid_dimensions
    truncation := cfg.truncation
    max_instances := cfg.max_instances
    num_min_instance_pixels := cfg.min_pixels
    stuff_classes := [0, 10, 11, 12]
    frustum_mask := load_frustum_mask dataset_root_path
    transforms := define_transformations cfg }

/-- `Front3D.__len__`. -/
def Front3D.len (s : Front3DState) : Nat := s.samples.length

/-- Truthiness of a Python string (non-empty is truthy). -/
def pyTruthyStr (s : String) : Bool := s ≠ ""

/-- The condition of source line 98, `"semantic3d" or "instance3d" in
self.fields`, which Python parses as
`("semantic3d") or ("instance3d" in self.fields)`: the non-empty string
literal is truthy, so the right operand is short-circuited away. -/
def segGate (fl : List String) : Bool :=
  if pyTruthyStr "semantic3d" then true else fl.contains "instance3d"

/-- Path `self.dataset_root_path / scene_id / file_name`. -/
def scenePath (root scene_id file_name : String) : String :=
  root ++ "/" ++ scene_id ++ "/" ++ file_name

/-- `__getitem__` lines 63-66: the `color` branch. -/
def step_color (s : Front3DState) (scene_id image_id : String)
    (fl : List String) (sample : FieldList) : Except PyErr FieldList :=
  if fl.contains "color" then
    match getTransform s.transforms "color" with
    | Except.error e => Except.error e
    | Except.ok t =>
        Except.ok (sample.addField "color" (applyT none t
          (Val.image (scenePath s.dataset_root_path scene_id ("rgb_" ++ image_id ++ ".png")))))
  else Except.ok sample

/-- `__getitem__` lines 68-71: the `depth` branch (the decode flips both
spatial axes before the transform chain, folded into `Val.exrFlipped`). -/
def step_depth (s : Front3DState) (scene_id image_id : String)
    (fl : List String) (sample : FieldList) : Except PyErr FieldList :=
  if fl.contains "depth" then
    match getTransform s.transforms "depth" with
    | Except.error e => Except.error e
    | Except.ok t =>
        Except.ok (sample.addField "depth" (applyT none t
          (Val.exrFlipped (scenePath s.dataset_root_path scene_id ("depth_" ++ image_id ++ ".exr")))))
  else Except.ok sample

/-- `__getitem__` lines 73-76: the `instance2d` branch. -/
def step_instance2d (s : Front3DState) (scene_id image_id : String)
    (fl : List String) (sample : FieldList) : Except PyErr FieldList :=
  if fl.contains "instance2d" then
    match getTransform s.transforms "instance2d" with
    | Except.error e => Except.error e
    | Except.ok t =>
        Except.ok (sample.addField "instance2d" (applyT none t
          (Val.npz (scenePath s.dataset_root_path scene_id ("segmap_" ++ image_id ++ ".mapped.npz")))))
  else Except.ok sample

/-- `__getitem__` lines 80-96: the `geometry` branch.  The three occupancy
fields are derived from the transformed geometry, then the truncation
transform is applied and the result stored, then the frustum-mask clone is
attached; the branch sets `needs_weighting` (second component). -/
def step_geometry (s : Front3DState) (scene_id image_id : String)
    (fl : List String) (sample : FieldList) : Except PyErr (FieldList × Bool) :=
  if fl.contains "geometry" then
    match getTransform s.transforms "geometry" with
    | Except.error e => Except.error e
    | Except.ok tg =>
    let geometry := applyT none tg
      (Val.sdf (scenePath s.dataset_root_path scene_id ("geometry_" ++ image_id ++ ".df")) 12)
    match getTransform s.transforms "occupancy_256" with
    | Except.error e => Except.error e
    | Except.ok t256 =>
    match getTransform s.transforms "occupancy_128" with
    | Except.error e => Except.error e
    | Except.ok t128 =>
    match getTransform s.transforms "occupancy_64" with
    | Except.error e => Except.error e
    | Except.ok t64 =>
    match getTransform s.transforms "geometry_truncate" with
    | Except.error e => Except.error e
    | Except.ok tt =>
        Except.ok ((((((sample.addField "occupancy_256" (applyT none t256 geometry)).addField
          "occupancy_128" (applyT none t128 geometry)).addField
          "occupancy_64" (applyT none t64 geometry)).addField
          "geometry" (applyT none tt geometry)).addField
          "frustum_mask" (Val.clone s.frustum_mask)), true)
  else Except.ok (sample, false)

/-- `__getitem__` lines 103-109: the `semantic3d` sub-branch. -/
def step_semantic3d (s : Front3DState) (fl : List String) (semantic3d0 : Val)
    (sample : FieldList) : Except PyErr FieldList :=
  if fl.contains "semantic3d" then
    match getTransform s.transforms "semantic3d" with
    | Except.error e => Except.error e
    | Except.ok t =>
    let semantic3d := applyT none t semantic3d0
    match getTransform s.transforms "segmentation3d_128" with
    | Except.error e => Except.error e
    | Except.ok t128 =>
    match getTransform s.transforms "segmentation3d_64" with
    | Except.error e => Except.error e
    | Except.ok t64 =>
        Except.ok (((sample.addField "semantic3d" semantic3d).addField
          "semantic3d_128" (applyT none t128 semantic3d)).addField
          "semantic3d_64" (applyT none t64 semantic3d))
  else Except.ok sample

/-- `__getitem__` lines 111-119: the `instance3d` sub-branch.  It first looks
up the `instance_locations` sub-field of the previously stored `instance2d`
field (missing-field lookup failure when `instance2d` was never added). -/
def step_instance3d (s : Front3DState) (fl : List String) (instance3d0 : Val)
    (sample : FieldList) : Except PyErr FieldList :=
  if fl.contains "instance3d" then
    match sample.getField "instance2d" with
    | none => Except.error (PyErr.keyError "instance2d")
    | some inst2d =>
    let instance_mapping := getSubfield inst2d "instance_locations"
    match getTransform s.transforms "instance3d" with
    | Except.error e => Except.error e
    | Except.ok t =>
    let instance3d := applyT (some instance_mapping) t instance3d0
    match getTransform s.transforms "segmentation3d_128" with
    | Except.error e => Except.error e
    | Except.ok t128 =>
    match getTransform s.transforms "segmentation3d_64" with
    | Except.error e => Except.error e
    | Except.ok t64 =>
        Except.ok (((sample.addField "instance3d" instance3d).addField
          "instance3d_128" (applyT none t128 instance3d)).addField
          "instance3d_64" (applyT none t64 instance3d))
  else Except.ok sample

/-- `__getitem__` lines 98-119: the segmentation block.  Its guard is the
operator-precedence pattern of line 98 (`segGate`); inside, the sparse
segmentation volume is decoded once (max instance id 1000, ignore value 0)
and `needs_weighting` is set (second component). -/
def step_segmentation (s : Front3DState) (scene_id image_id : String)
    (fl : List String) (sample : FieldList) : Except PyErr (FieldList × Bool) :=
  if segGate fl then
    let segPath := scenePath s.dataset_root_path scene_id ("segmentation_" ++ image_id ++ ".mapped.sem")
    let semantic3d0 := Val.semDense segPath 1000 0
    let instance3d0 := Val.instDense segPath 1000 0
    match step_semantic3d s fl semantic3d0 sample with
    | Except.error e => Except.error e
    | Except.ok sample1 =>
      match step_instance3d s fl instance3d0 sample1 with
      | Except.error e => Except.error e
      | Except.ok sample2 => Except.ok (sample2, true)
  else Except.ok (sample, false)

/-- `__getitem__` lines 121-129: the weighting block.  The second sparse
distance field is decoded with default fill value `1.0`; both reduced-
resolution fields apply the transform looked up under the key
`"weighting3d_128"` (source line 129 reads that key for `weighting3d_64`). -/
def step_weighting (s : Front3DState) (scene_id image_id : String)
    (needs_weighting : Bool) (sample : FieldList) : Except PyErr FieldList :=
  if needs_weighting then
    match getTransform s.transforms "weighting" with
    | Except.error e => Except.error e
    | Except.ok tw =>
    let weighting := applyT none tw
      (Val.sdf (scenePath s.dataset_root_path scene_id ("weighting_" ++ image_id ++ ".df")) 1)
    match getTransform s.transforms "weighting3d_128" with
    | Except.error e => Except.error e
    | Except.ok t128 =>
    match getTransform s.transforms "weighting3d_128" with
    | Except.error e => Except.error e
    | Except.ok t64 =>
        Except.ok (((sample.addField "weighting3d" weighting).addField
          "weighting3d_128" (applyT none t128 weighting)).addField
          "weighting3d_64" (applyT none t64 weighting))
  else Except.ok sample

/-- `Front3D.__getitem__`, assembled from the step functions in source
order.  The first field-membership test (line 63) resolves the `self.fields`
attribute: `AttributeError` when `__init__` never assigned it, `TypeError`
(`in` on `None`) when it holds `None`. -/
def getitem (s : Front3DState) (index : Nat) : Except PyErr FieldList :=
  match s.samples.get? index with
  | none => Except.error PyErr.indexError
  | some sample_path =>
  match (pySplit sample_path '/').get? 0 with
  | none => Except.error PyErr.indexError
  | some scene_id =>
  match (pySplit sample_path '/').get? 1 with
  | none => Except.error PyErr.indexError
  | some image_id =>
  let sample := ((FieldList.empty s.image_size).addField "index"
    (Val.pyInt index)).addField "name" (Val.pyStr sample_path)
  match s.fields with
  | PyAttr.unset => Except.error PyErr.attributeError
  | PyAttr.set none => Except.error PyErr.typeError
  | PyAttr.set (some fl) =>
    match step_color s scene_id image_id fl sample with
    | Except.error e => Except.error e
    | Except.ok sample1 =>
    match step_depth s scene_id image_id fl sample1 with
    | Except.error e => Except.error e
    | Except.ok sample2 =>
    match step_instance2d s scene_id image_id fl sample2 with
    | Except.error e => Except.error e
    | Except.ok sample3 =>
    match step_geometry s scene_id image_id fl sample3 with
    | Except.error e => Except.error e
    | Except.ok (sample4, nw1) =>
    match step_segmentation s scene_id image_id fl sample4 with
    | Except.error e => Except.error e
    | Except.ok (sample5, nw2) =>
    step_weighting s scene_id image_id (nw1 || nw2) sample5

/-- A dataset descriptor of the path catalog. -/
structure Descriptor where
  file_list_path : String
  dataset_root_path : String
  factory : String
  deriving Repr, DecidableEq

/-- `DatasetCatalog.DATASETS`, the static table, entry for entry. -/
def DATASETS : List (String × Descriptor) :=
  [("Front3DImages_Train",
      ⟨"resources/front3d/train_list_2d.txt", "data/front3d/", "Front3D"⟩),
   ("Front3DImages_Validation",
      ⟨"resources/front3d/validation_list_2d.txt", "data/front3d/", "Front3D"⟩),
   ("Front3DImages_Test",
      ⟨"resources/front3d/test_list_2d.txt", "data/front3d/", "Front3D"⟩),
   ("Front3D_Sample",
      ⟨"resources/front3d/sample.txt", "data/front3d-sample/", "Front3D"⟩),
   ("Front3D_Train",
      ⟨"resources/front3d/train_list_3d.txt", "data/front3d/", "Front3D"⟩),
   ("Front3D_Validation",
      ⟨"resources/front3d/validation_list_3d.txt", "data/front3d/", "Front3D"⟩),
   ("Front3D_Test",
      ⟨"resources/front3d/test_list_3d.txt", "data/front3d/", "Front3D"⟩)]

/-- Lookup in a catalog table (Python dict indexing: `KeyError` when the
name is absent). -/
def catalogLookup (table : List (String × Descriptor)) (name : String) :
    Except PyErr Descriptor :=
  match table.find? (fun p => p.1 = name) with
  | some p => Except.ok p.2
  | none => Except.error (PyErr.keyError name)

/-- `DatasetCatalog.get`. -/
def DatasetCatalog.get (name : String) : Except PyErr Descriptor :=
  catalogLookup DATASETS name

/-- `DatasetCatalog.get` with the table passed as explicit state, to express
that the call reads but never writes the static table. -/
def DatasetCatalog.getFrom (table : List (String × Descriptor)) (name : String) :
    Except PyErr Descriptor × List (String × Descriptor) :=
  (catalogLookup table name, table)

/-- Floor-scaling of one spatial extent by a nonnegative rational factor,
the documented shape contract of trilinear resizing
(`floor(dim * scale_factor)`). -/
def scaleDim (s : Rat) (d : Nat) : Nat := ⌊(d : Rat) * s⌋₊

/-- Documented spatial-shape contract of the black-box 3D volume pipeline:
a decoded sparse distance field has the shape the file dictates (the oracle
`sh`), tensor conversion / truncation / binarization keep the spatial shape,
trilinear resizing floor-scales every spatial axis, and the channel
dimension added by `Unsqueeze` is not spatial.  Primitives without a
documented shape contract yield `none`. -/
def spatialShape (sh : String → Rat → List Nat) : Val → Option (List Nat)
  | Val.sdf p fill => some (sh p fill)
  | Val.clone v => spatialShape sh v
  | Val.app t _ v =>
    match t with
    | TPrim.toTensor3d _ => spatialShape sh v
    | TPrim.unsqueeze _ => spatialShape sh v
    | TPrim.toTDF _ => spatialShape sh v
    | TPrim.toBinaryMask _ => spatialShape sh v
    | TPrim.resizeTrilinear s => (spatialShape sh v).map (List.map (scaleDim s))
    | _ => none
  | _ => none

/-- Whether an `Except` result is a success. -/
def exceptIsOk : Except ε α → Bool
  | Except.ok _ => true
  | Except.error _ => false

/-- A concrete geometric configuration used to instantiate theorems. -/
def cfg0 : Config := ⟨"K0", 4/100, 4/10, 6, [256, 256, 256], 3, 20, 50⟩

/-- A concrete two-sample dataset state; `fl` overrides the `fields`
attribute so that retrieval branches past the membership test are
reachable. -/
def exState (fl : Option (List String)) : Front3DState :=
  { Front3D.init ["00001_00/0001", "00001_00/0002"] "data/front3d-sample"
      (some ["color"]) none false (fun n => n) cfg0 with
    fields := PyAttr.set fl }

/-- A transform-table entry for the `"weighting"` key (absent from
`define_transformations`), used to exhibit states on which the weighting
block can complete. -/
def weightingEntry : String × T :=
  ("weighting", T.compose [TPrim.toTensor3d "float", TPrim.unsqueeze 0])

/-- A concrete state whose transform table additionally resolves the
`"weighting"` key, so that `getitem` can return a record. -/
def okState (fl : List String) : Front3DState :=
  { exState (some fl) with
    transforms := define_transformations cfg0 ++ [weightingEntry] }

theorem getField_addField_self (fl : FieldList) (k : String) (v : Val) :
    (fl.addField k v).getField k = some v := by
  simp [FieldList.addField, FieldList.getField, List.find?]

theorem getField_addField_ne (fl : FieldList) (k k' : String) (v : Val)
    (h : ¬ k' = k) : (fl.addField k v).getField k' = fl.getField k' := by
  simp only [FieldList.addField, FieldList.getField, List.find?]
  have : (decide (k = k')) = false := by
    simp only [decide_eq_false_iff_not]
    exact fun hk => h hk.symm
  simp [this]

theorem step_color_preserves {s : Front3DState} {scene_id image_id : String}
    {fl : List String} {sample sample' : FieldList}
    (h : step_color s scene_id image_id fl sample = Except.ok sample')
    (k : String) (hk : ¬ k = "color") :
    sample'.getField k = sample.getField k := by
  unfold step_color at h
  by_cases hc : fl.contains "color" = true
  · rw [if_pos hc] at h
    cases ht : getTransform s.transforms "color" with
    | error e => rw [ht] at h; cases h
    | ok t =>
        rw [ht] at h
        cases h
        exact getField_addField_ne _ _ _ _ hk
  · rw [if_neg hc] at h
    cases h
    rfl

theorem step_depth_preserves {s : Front3DState} {scene_id image_id : String}
    {fl : List String} {sample sample' : FieldList}
    (h : step_depth s scene_id image_id fl sample = Except.ok sample')
    (k : String) (hk : ¬ k = "depth") :
    sample'.getField k = sample.getField k := by
  unfold step_depth at h
  by_cases hc : fl.contains "depth" = true
  · rw [if_pos hc] at h
    cases ht : getTransform s.transforms "depth" with
    | error e => rw [ht] at h; cases h
    | ok t =>
        rw [ht] at h
        cases h
        exact getField_addField_ne _ _ _ _ hk
  · rw [if_neg hc] at h
    cases h
    rfl

theorem step_instance2d_preserves {s : Front3DState} {scene_id image_id : String}
    {fl : List String} {sample sample' : FieldList}
    (h : step_instance2d s scene_id image_id fl sample = Except.ok sample')
    (k : String) (hk : ¬ k = "instance2d") :
    sample'.getField k = sample.getField k := by
  unfold step_instance2d at h
  by_cases hc : fl.contains "instance2d" = true
  · rw [if_pos hc] at h
    cases ht : getTransform s.transforms "instance2d" with
    | error e => rw [ht] at h; cases h
    | ok t =>
        rw [ht] at h
        cases h
        exact getField_addField_ne _ _ _ _ hk
  · rw [if_neg hc] at h
    cases h
    rfl

theorem step_geometry_preserves {s : Front3DState} {scene_id image_id : String}
    {fl : List String} {sample sample' : FieldList} {b : Bool}
    (h : step_geometry s scene_id image_id fl sample = Except.ok (sample', b))
    (k : String) (hk : ¬ k = "occupancy_256") (hk2 : ¬ k = "occupancy_128")
    (hk3 : ¬ k = "occupancy_64") (hk4 : ¬ k = "geometry")
    (hk5 : ¬ k = "frustum_mask") :
    sample'.getField k = sample.getField k := by
  unfold step_geometry at h
  by_cases hc : fl.contains "geometry" = true
  · rw [if_pos hc] at h
    cases h1 : getTransform s.transforms "geometry" with
    | error e => rw [h1] at h; cases h
    | ok tg =>
    rw [h1] at h
    cases h2 : getTransform s.transforms "occupancy_256" with
    | error e => rw [h2] at h; cases h
    | ok t256 =>
    rw [h2] at h
    cases h3 : getTransform s.transforms "occupancy_128" with
    | error e => rw [h3] at h; cases h
    | ok t128 =>
    rw [h3] at h
    cases h4 : getTransform s.transforms "occupancy_64" with
    | error e => rw [h4] at h; cases h
    | ok t64 =>
    rw [h4] at h
    cases h5 : getTransform s.transforms "geometry_truncate" with
    | error e => rw [h5] at h; cases h
    | ok tt =>
    rw [h5] at h
    cases h
    rw [getField_addField_ne _ _ _ _ hk5, getField_addField_ne _ _ _ _ hk4,
      getField_addField_ne _ _ _ _ hk3, getField_addField_ne _ _ _ _ hk2,
      getField_addField_ne _ _ _ _ hk]
  · rw [if_neg hc] at h
    cases h
    rfl

theorem step_semantic3d_preserves {s : Front3DState} {fl : List String}
    {v0 : Val} {sample sample' : FieldList}
    (h : step_semantic3d s fl v0 sample = Except.ok sample')
    (k : String) (hk : ¬ k = "semantic3d") (hk2 : ¬ k = "semantic3d_128")
    (hk3 : ¬ k = "semantic3d_64") :
    sample'.getField k = sample.getField k := by
  unfold step_semantic3d at h
  by_cases hc : fl.contains "semantic3d" = true
  · rw [if_pos hc] at h
    cases h1 : getTransform s.transforms "semantic3d" with
    | error e => rw [h1] at h; cases h
    | ok t =>
    rw [h1] at h
    cases h2 : getTransform s.transforms "segmentation3d_128" with
    | error e => rw [h2] at h; cases h
    | ok t128 =>
    rw [h2] at h
    cases h3 : getTransform s.transforms "segmentation3d_64" with
    | error e => rw [h3] at h; cases h
    | ok t64 =>
    rw [h3] at h
    cases h
    rw [getField_addField_ne _ _ _ _ hk3, getField_addField_ne _ _ _ _ hk2,
      getField_addField_ne _ _ _ _ hk]
  · rw [if_neg hc] at h
    cases h
    rfl

theorem step_instance3d_preserves {s : Front3DState} {fl : List String}
    {v0 : Val} {sample sample' : FieldList}
    (h : step_instance3d s fl v0 sample = Except.ok sample')
    (k : String) (hk : ¬ k = "instance3d") (hk2 : ¬ k = "instance3d_128")
    (hk3 : ¬ k = "instance3d_64") :
    sample'.getField k = sample.getField k := by
  unfold step_instance3d at h
  by_cases hc : fl.contains "instance3d" = true
  · rw [if_pos hc] at h
    cases h0 : sample.getField "instance2d" with
    | none => rw [h0] at h; cases h
    | some inst2d =>
    rw [h0] at h
    cases h1 : getTransform s.transforms "instance3d" with
    | error e => rw [h1] at h; cases h
    | ok t =>
    rw [h1] at h
    cases h2 : getTransform s.transforms "segmentation3d_128" with
    | error e => rw [h2] at h; cases h
    | ok t128 =>
    rw [h2] at h
    cases h3 : getTransform s.transforms "segmentation3d_64" with
    | error e => rw [h3] at h; cases h
    | ok t64 =>
    rw [h3] at h
    cases h
    rw [getField_addField_ne _ _ _ _ hk3, getField_addField_ne _ _ _ _ hk2,
      getField_addField_ne _ _ _ _ hk]
  · rw [if_neg hc] at h
    cases h
    rfl

theorem step_segmentation_preserves {s : Front3DState} {scene_id image_id : String}
    {fl : List String} {sample sample' : FieldList} {b : Bool}
    (h : step_segmentation s scene_id image_id fl sample = Except.ok (sample', b))
    (k : String) (hk : ¬ k = "semantic3d") (hk2 : ¬ k = "semantic3d_128")
    (hk3 : ¬ k = "semantic3d_64") (hk4 : ¬ k = "instance3d")
    (hk5 : ¬ k = "instance3d_128") (hk6 : ¬ k = "instance3d_64") :
    sample'.getField k = sample.getField k := by
  unfold step_segmentation at h
  by_cases hc : segGate fl = true
  · rw [if_pos hc] at h
    simp only [] at h
    cases h1 : step_semantic3d s fl
        (Val.semDense (scenePath s.dataset_root_path scene_id
          ("segmentation_" ++ image_id ++ ".mapped.sem")) 1000 0) sample with
    | error e => rw [h1] at h; cases h
    | ok sample1 =>
    rw [h1] at h
    simp only [] at h
    cases h2 : step_instance3d s fl
        (Val.instDense (scenePath s.dataset_root_path scene_id
          ("segmentation_" ++ image_id ++ ".mapped.sem")) 1000 0) sample1 with
    | error e => rw [h2] at h; cases h
    | ok sample2 =>
    rw [h2] at h
    cases h
    rw [step_instance3d_preserves h2 k hk4 hk5 hk6,
      step_semantic3d_preserves h1 k hk hk2 hk3]
  · rw [if_neg hc] at h
    cases h
    rfl

theorem step_weighting_preserves {s : Front3DState} {scene_id image_id : String}
    {nw : Bool} {sample sample' : FieldList}
    (h : step_weighting s scene_id image_id nw sample = Except.ok sample')
    (k : String) (hk : ¬ k = "weighting3d") (hk2 : ¬ k = "weighting3d_128")
    (hk3 : ¬ k = "weighting3d_64") :
    sample'.getField k = sample.getField k := by
  unfold step_weighting at h
  by_cases hc : nw = true
  · rw [if_pos hc] at h
    cases h1 : getTransform s.transforms "weighting" with
    | error e => rw [h1] at h; cases h
    | ok tw =>
    rw [h1] at h
    cases h2 : getTransform s.transforms "weighting3d_128" with
    | error e => rw [h2] at h; cases h
    | ok t128 =>
    rw [h2] at h
    cases h
    rw [getField_addField_ne _ _ _ _ hk3, getField_addField_ne _ _ _ _ hk2,
      getField_addField_ne _ _ _ _ hk]
  · rw [if_neg hc] at h
    cases h
    rfl

/-- The line-98 guard is true for every field list: the string literal is
truthy and short-circuits the membership test. -/
theorem segGate_eq_true (fl : List String) : segGate fl = true := rfl

theorem step_color_total {s : Front3DState} {cfg : Config}
    (htab : s.transforms = define_transformations cfg)
    (scene_id image_id : String) (fl : List String) (sample : FieldList) :
    ∃ r, step_color s scene_id image_id fl sample = Except.ok r := by
  unfold step_color
  rw [htab]
  by_cases hc : fl.contains "color" = true
  · rw [if_pos hc]
    exact ⟨_, rfl⟩
  · rw [if_neg hc]
    exact ⟨_, rfl⟩

theorem step_depth_total {s : Front3DState} {cfg : Config}
    (htab : s.transforms = define_transformations cfg)
    (scene_id image_id : String) (fl : List String) (sample : FieldList) :
    ∃ r, step_depth s scene_id image_id fl sample = Except.ok r := by
  unfold step_depth
  rw [htab]
  by_cases hc : fl.contains "depth" = true
  · rw [if_pos hc]
    exact ⟨_, rfl⟩
  · rw [if_neg hc]
    exact ⟨_, rfl⟩

theorem step_instance2d_total {s : Front3DState} {cfg : Config}
    (htab : s.transforms = define_transformations cfg)
    (scene_id image_id : String) (fl : List String) (sample : FieldList) :
    ∃ r, step_instance2d s scene_id image_id fl sample = Except.ok r := by
  unfold step_instance2d
  rw [htab]
  by_cases hc : fl.contains "instance2d" = true
  · rw [if_pos hc]
    exact ⟨_, rfl⟩
  · rw [if_neg hc]
    exact ⟨_, rfl⟩

theorem step_geometry_total {s : Front3DState} {cfg : Config}
    (htab : s.transforms = define_transformations cfg)
    (scene_id image_id : String) (fl : List String) (sample : FieldList) :
    ∃ r b, step_geometry s scene_id image_id fl sample = Except.ok (r, b) := by
  unfold step_geometry
  rw [htab]
  by_cases hc : fl.contains "geometry" = true
  · rw [if_pos hc]
    exact ⟨_, _, rfl⟩
  · rw [if_neg hc]
    exact ⟨_, _, rfl⟩

theorem step_semantic3d_total {s : Front3DState} {cfg : Config}
    (htab : s.transforms = define_transformations cfg)
    (fl : List String) (v0 : Val) (sample : FieldList) :
    ∃ r, step_semantic3d s fl v0 sample = Except.ok r := by
  unfold step_semantic3d
  rw [htab]
  by_cases hc : fl.contains "semantic3d" = true
  · rw [if_pos hc]
    exact ⟨_, rfl⟩
  · rw [if_neg hc]
    exact ⟨_, rfl⟩

theorem step_instance3d_missing {s : Front3DState} {fl : List String}
    {v0 : Val} {sample : FieldList}
    (hc : fl.contains "instance3d" = true)
    (h0 : sample.getField "instance2d" = none) :
    step_instance3d s fl v0 sample = Except.error (PyErr.keyError "instance2d") := by
  unfold step_instance3d
  rw [if_pos hc, h0]

theorem step_geometry_ok_elim {s : Front3DState} {scene_id image_id : String}
    {fl : List String} {sample sample' : FieldList} {b : Bool}
    (hc : fl.contains "geometry" = true)
    (h : step_geometry s scene_id image_id fl sample = Except.ok (sample', b)) :
    ∃ tg t256 t128 t64 tt,
      getTransform s.transforms "geometry" = Except.ok tg ∧
      getTransform s.transforms "occupancy_256" = Except.ok t256 ∧
      getTransform s.transforms "occupancy_128" = Except.ok t128 ∧
      getTransform s.transforms "occupancy_64" = Except.ok t64 ∧
      getTransform s.transforms "geometry_truncate" = Except.ok tt ∧
      b = true ∧
      sample' =
        (((((sample.addField "occupancy_256" (applyT none t256 (applyT none tg
          (Val.sdf (scenePath s.dataset_root_path scene_id ("geometry_" ++ image_id ++ ".df")) 12)))).addField
          "occupancy_128" (applyT none t128 (applyT none tg
          (Val.sdf (scenePath s.dataset_root_path scene_id ("geometry_" ++ image_id ++ ".df")) 12)))).addField
          "occupancy_64" (applyT none t64 (applyT none tg
          (Val.sdf (scenePath s.dataset_root_path scene_id ("geometry_" ++ image_id ++ ".df")) 12)))).addField
          "geometry" (applyT none tt (applyT none tg
          (Val.sdf (scenePath s.dataset_root_path scene_id ("geometry_" ++ image_id ++ ".df")) 12)))).addField
          "frustum_mask" (Val.clone s.frustum_mask)) := by
  unfold step_geometry at h
  rw [if_pos hc] at h
  cases h1 : getTransform s.transforms "geometry" with
  | error e => rw [h1] at h; cases h
  | ok tg =>
  rw [h1] at h
  simp only [] at h
  cases h2 : getTransform s.transforms "occupancy_256" with
  | error e => rw [h2] at h; cases h
  | ok t256 =>
  rw [h2] at h
  cases h3 : getTransform s.transforms "occupancy_128" with
  | error e => rw [h3] at h; cases h
  | ok t128 =>
  rw [h3] at h
  cases h4 : getTransform s.transforms "occupancy_64" with
  | error e => rw [h4] at h; cases h
  | ok t64 =>
  rw [h4] at h
  cases h5 : getTransform s.transforms "geometry_truncate" with
  | error e => rw [h5] at h; cases h
  | ok tt =>
  rw [h5] at h
  cases h
  exact ⟨tg, t256, t128, t64, tt, rfl, rfl, rfl, rfl, rfl, rfl, rfl⟩

theorem step_instance3d_ok_elim {s : Front3DState} {fl : List String}
    {v0 : Val} {sample sample' : FieldList}
    (hc : fl.contains "instance3d" = true)
    (h : step_instance3d s fl v0 sample = Except.ok sample') :
    ∃ inst2d t t128 t64,
      sample.getField "instance2d" = some inst2d ∧
      getTransform s.transforms "instance3d" = Except.ok t ∧
      getTransform s.transforms "segmentation3d_128" = Except.ok t128 ∧
      getTransform s.transforms "segmentation3d_64" = Except.ok t64 ∧
      sample' =
        (((sample.addField "instance3d"
            (applyT (some (getSubfield inst2d "instance_locations")) t v0)).addField
          "instance3d_128" (applyT none t128
            (applyT (some (getSubfield inst2d "instance_locations")) t v0))).addField
          "instance3d_64" (applyT none t64
            (applyT (some (getSubfield inst2d "instance_locations")) t v0))) := by
  unfold step_instance3d at h
  rw [if_pos hc] at h
  cases h0 : sample.getField "instance2d" with
  | none => rw [h0] at h; cases h
  | some inst2d =>
  rw [h0] at h
  simp only [] at h
  cases h1 : getTransform s.transforms "instance3d" with
  | error e => rw [h1] at h; cases h
  | ok t =>
  rw [h1] at h
  cases h2 : getTransform s.transforms "segmentation3d_128" with
  | error e => rw [h2] at h; cases h
  | ok t128 =>
  rw [h2] at h
  cases h3 : getTransform s.transforms "segmentation3d_64" with
  | error e => rw [h3] at h; cases h
  | ok t64 =>
  rw [h3] at h
  cases h
  exact ⟨inst2d, t, t128, t64, rfl, rfl, rfl, rfl, rfl⟩

theorem step_segmentation_ok_elim {s : Front3DState} {scene_id image_id : String}
    {fl : List String} {sample sample' : FieldList} {b : Bool}
    (h : step_segmentation s scene_id image_id fl sample = Except.ok (sample', b)) :
    ∃ sample1,
      step_semantic3d s fl (Val.semDense (scenePath s.dataset_root_path scene_id
        ("segmentation_" ++ image_id ++ ".mapped.sem")) 1000 0) sample = Except.ok sample1 ∧
      step_instance3d s fl (Val.instDense (scenePath s.dataset_root_path scene_id
        ("segmentation_" ++ image_id ++ ".mapped.sem")) 1000 0) sample1 = Except.ok sample' ∧
      b = true := by
  unfold step_segmentation at h
  rw [if_pos (segGate_eq_true fl)] at h
  simp only [] at h
  cases h1 : step_semantic3d s fl (Val.semDense (scenePath s.dataset_root_path scene_id
      ("segmentation_" ++ image_id ++ ".mapped.sem")) 1000 0) sample with
  | error e => rw [h1] at h; cases h
  | ok sample1 =>
  rw [h1] at h
  simp only [] at h
  cases h2 : step_instance3d s fl (Val.instDense (scenePath s.dataset_root_path scene_id
      ("segmentation_" ++ image_id ++ ".mapped.sem")) 1000 0) sample1 with
  | error e => rw [h2] at h; cases h
  | ok sample2 =>
  rw [h2] at h
  cases h
  exact ⟨sample1, rfl, h2, rfl⟩

theorem step_weighting_ok_elim {s : Front3DState} {scene_id image_id : String}
    {sample sample' : FieldList}
    (h : step_weighting s scene_id image_id true sample = Except.ok sample') :
    ∃ tw t128,
      getTransform s.transforms "weighting" = Except.ok tw ∧
      getTransform s.transforms "weighting3d_128" = Except.ok t128 ∧
      sample' =
        (((sample.addField "weighting3d" (applyT none tw
          (Val.sdf (scenePath s.dataset_root_path scene_id ("weighting_" ++ image_id ++ ".df")) 1))).addField
          "weighting3d_128" (applyT none t128 (applyT none tw
          (Val.sdf (scenePath s.dataset_root_path scene_id ("weighting_" ++ image_id ++ ".df")) 1)))).addField
          "weighting3d_64" (applyT none t128 (applyT none tw
          (Val.sdf (scenePath s.dataset_root_path scene_id ("weighting_" ++ image_id ++ ".df")) 1)))) := by
  unfold step_weighting at h
  rw [if_pos rfl] at h
  cases h1 : getTransform s.transforms "weighting" with
  | error e => rw [h1] at h; cases h
  | ok tw =>
  rw [h1] at h
  simp only [] at h
  cases h2 : getTransform s.transforms "weighting3d_128" with
  | error e => rw [h2] at h; cases h
  | ok t128 =>
  rw [h2] at h
  cases h
  exact ⟨tw, t128, rfl, rfl, rfl⟩

theorem getitem_ok_elim {s : Front3DState} {i : Nat} {rec : FieldList}
    (h : getitem s i = Except.ok rec) :
    ∃ p scene_id image_id fl sample1 sample2 sample3 sample4 nw1 sample5 nw2,
      s.samples.get? i = some p ∧
      (pySplit p '/').get? 0 = some scene_id ∧
      (pySplit p '/').get? 1 = some image_id ∧
      s.fields = PyAttr.set (some fl) ∧
      step_color s scene_id image_id fl (((FieldList.empty s.image_size).addField "index"
        (Val.pyInt i)).addField "name" (Val.pyStr p)) = Except.ok sample1 ∧
      step_depth s scene_id image_id fl sample1 = Except.ok sample2 ∧
      step_instance2d s scene_id image_id fl sample2 = Except.ok sample3 ∧
      step_geometry s scene_id image_id fl sample3 = Except.ok (sample4, nw1) ∧
      step_segmentation s scene_id image_id fl sample4 = Except.ok (sample5, nw2) ∧
      step_weighting s scene_id image_id (nw1 || nw2) sample5 = Except.ok rec := by
  unfold getitem at h
  cases hp : s.samples.get? i with
  | none => rw [hp] at h; cases h
  | some p =>
  rw [hp] at h
  simp only [] at h
  cases hsc : (pySplit p '/').get? 0 with
  | none => rw [hsc] at h; cases h
  | some scene_id =>
  rw [hsc] at h
  simp only [] at h
  cases him : (pySplit p '/').get? 1 with
  | none => rw [him] at h; cases h
  | some image_id =>
  rw [him] at h
  simp only [] at h
  cases hf : s.fields with
  | unset => rw [hf] at h; cases h
  | set o =>
  rw [hf] at h
  cases o with
  | none => cases h
  | some fl =>
  simp only [] at h
  cases h1 : step_color s scene_id image_id fl (((FieldList.empty s.image_size).addField "index"
      (Val.pyInt i)).addField "name" (Val.pyStr p)) with
  | error e => rw [h1] at h; cases h
  | ok sample1 =>
  rw [h1] at h
  simp only [] at h
  cases h2 : step_depth s scene_id image_id fl sample1 with
  | error e => rw [h2] at h; cases h
  | ok sample2 =>
  rw [h2] at h
  simp only [] at h
  cases h3 : step_instance2d s scene_id image_id fl sample2 with
  | error e => rw [h3] at h; cases h
  | ok sample3 =>
  rw [h3] at h
  simp only [] at h
  cases h4 : step_geometry s scene_id image_id fl sample3 with
  | error e => rw [h4] at h; cases h
  | ok pair4 =>
  rw [h4] at h
  simp only [] at h
  cases pair4 with
  | mk sample4 nw1 =>
  cases h5 : step_segmentation s scene_id image_id fl sample4 with
  | error e => rw [h5] at h; cases h
  | ok pair5 =>
  rw [h5] at h
  simp only [] at h
  cases pair5 with
  | mk sample5 nw2 =>
  exact ⟨p, scene_id, image_id, fl, sample1, sample2, sample3, sample4, nw1, sample5, nw2,
    rfl, hsc, him, rfl, h1, h2, h3, h4, h5, h⟩

theorem cons_set_perm {α : Type} (a : α) :
    ∀ (xs : List α) (m : Nat) (b : α), xs.get? m = some b →
      List.Perm (b :: xs.set m a) (a :: xs) := by
  intro xs
  induction xs with
  | nil => intro m b h; cases h
  | cons x t ih =>
    intro m b h
    cases m with
    | zero =>
      simp only [List.get?] at h
      cases h
      exact List.Perm.swap a x t
    | succ k =>
      simp only [List.get?] at h
      have step1 : List.Perm (b :: x :: t.set k a) (x :: b :: t.set k a) :=
        List.Perm.swap x b (t.set k a)
      have step2 : List.Perm (x :: b :: t.set k a) (x :: a :: t) :=
        List.Perm.cons x (ih k b h)
      have step3 : List.Perm (x :: a :: t) (a :: x :: t) := List.Perm.swap a x t
      exact (step1.trans step2).trans step3

theorem set_set_perm {α : Type} :
    ∀ (l : List α) (i j : Nat) (a b : α), l.get? i = some a → l.get? j = some b →
      List.Perm ((l.set i b).set j a) l := by
  intro l
  induction l with
  | nil => intro i j a b hi _; cases hi
  | cons x t ih =>
    intro i j a b hi hj
    cases i with
    | zero =>
      cases j with
      | zero =>
        simp only [List.get?] at hi hj
        cases hi
        cases hj
        simp [List.set]
      | succ m =>
        simp only [List.get?] at hi hj
        cases hi
        simpa [List.set] using cons_set_perm x t m b hj
    | succ n =>
      cases j with
      | zero =>
        simp only [List.get?] at hi hj
        cases hj
        simpa [List.set] using cons_set_perm x t n a hi
      | succ m =>
        simp only [List.get?] at hi hj
        simpa [List.set] using List.Perm.cons x (ih n m a b hi hj)

theorem swapAt_perm {α : Type} (l : List α) (i j : Nat) :
    List.Perm (swapAt l i j) l := by
  unfold swapAt
  cases hi : l.get? i with
  | none => exact List.Perm.refl l
  | some a =>
    cases hj : l.get? j with
    | none => exact List.Perm.refl l
    | some b => exact set_set_perm l i j a b hi hj

theorem shuffleLoop_perm {α : Type} (rand : Nat → Nat) :
    ∀ (i : Nat) (l : List α), List.Perm (shuffleLoop rand i l) l := by
  intro i
  induction i with
  | zero => intro l; exact List.Perm.refl l
  | succ k ih =>
    intro l
    exact (ih (swapAt l (k + 1) (rand (k + 1) % (k + 2)))).trans
      (swapAt_perm l (k + 1) (rand (k + 1) % (k + 2)))

/-- `random.shuffle` (as modelled) is a pure permutation for every
randomness oracle. -/
theorem pyShuffle_perm {α : Type} (rand : Nat → Nat) (l : List α) :
    List.Perm (pyShuffle rand l) l :=
  shuffleLoop_perm rand (l.length - 1) l

/-- C8: `DatasetCatalog.get(name)` returns the descriptor stored under
`name` in the static table when `name` is present, fails with a
`KeyError`-equivalent lookup failure when `name` is absent, and has no side
effects: the static table is unchanged by any call. -/
theorem C8_catalog_get (name : String) :
    (∀ p : String × Descriptor, DATASETS.find? (fun q => q.1 = name) = some p →
      DatasetCatalog.get name = Except.ok p.2) ∧
    (DATASETS.find? (fun q => q.1 = name) = none →
      DatasetCatalog.get name = Except.error (PyErr.keyError name)) ∧
    (DatasetCatalog.getFrom DATASETS name).2 = DATASETS := by
  refine ⟨?_, ?_, rfl⟩
  · intro p hp
    unfold DatasetCatalog.get catalogLookup
    rw [hp]
  · intro hnone
    unfold DatasetCatalog.get catalogLookup
    rw [hnone]

/-- C8 witness: a present name yields its stored descriptor, an absent name
yields the lookup failure, the table is returned unchanged. -/
theorem C8_catalog_get_witness :
    DatasetCatalog.get "Front3D_Train" =
      Except.ok ⟨"resources/front3d/train_list_3d.txt", "data/front3d/", "Front3D"⟩ ∧
    DatasetCatalog.get "Front3D_Unknown" =
      Except.error (PyErr.keyError "Front3D_Unknown") ∧
    (DatasetCatalog.getFrom DATASETS "Front3D_Train").2 = DATASETS := by
  refine ⟨?_, ?_, (C8_catalog_get "Front3D_Train").2.2⟩
  · exact (C8_catalog_get "Front3D_Train").1
      ("Front3D_Train", ⟨"resources/front3d/train_list_3d.txt", "data/front3d/", "Front3D"⟩) rfl
  · exact (C8_catalog_get "Front3D_Unknown").2.1 rfl

/-- C3: constructing with `num_samples = k ≤ len(file_list)` yields exactly
`k` samples (for either shuffle flag and any oracle), and constructing with
`num_samples = None` yields the full stripped file list unchanged: the
unset bound is a no-op, not an error. -/
theorem C3_truncation (lines : List String) (root : String)
    (fields : Option (List String)) (cfg : Config) (rand : Nat → Nat)
    (sh : Bool) (k : Nat)
    (hk : k ≤ (load_and_filter_file_list lines).length) :
    (Front3D.init lines root fields (some (k : Int)) sh rand cfg).samples.length = k ∧
    (Front3D.init lines root fields none false rand cfg).samples =
      load_and_filter_file_list lines := by
  constructor
  · have hlen : (if sh then pyShuffle rand (load_and_filter_file_list lines)
        else load_and_filter_file_list lines).length =
        (load_and_filter_file_list lines).length := by
      cases sh with
      | false => rfl
      | true => exact (pyShuffle_perm rand (load_and_filter_file_list lines)).length_eq
    simp only [Front3D.init, pySliceTo]
    rw [if_pos (by exact_mod_cast Nat.zero_le k : (0 : Int) ≤ (k : Int))]
    rw [List.length_take, hlen]
    simp only [Int.toNat_natCast]
    omega
  · rfl

/-- C3 witness at a concrete two-line file list with `k = 1`. -/
theorem C3_truncation_witness :
    (Front3D.init ["00001_00/0001", "00001_00/0002"] "data" (some ["color"])
      (some (1 : Int)) false (fun n => n) cfg0).samples.length = 1 ∧
    (Front3D.init ["00001_00/0001", "00001_00/0002"] "data" (some ["color"])
      none false (fun n => n) cfg0).samples =
      load_and_filter_file_list ["00001_00/0001", "00001_00/0002"] :=
  C3_truncation ["00001_00/0001", "00001_00/0002"] "data" (some ["color"]) cfg0
    (fun n => n) false 1 (by decide)

/-- C7: constructing twice with `shuffle = False` yields identical sample
order (even under different randomness oracles), and constructing with
`shuffle = True` (no sample cap) yields a pure permutation of the stripped
file list: same multiset of entries and same length. -/
theorem C7_shuffle (lines : List String) (root : String)
    (fields : Option (List String)) (ns : Option Int) (cfg : Config)
    (rand rand' : Nat → Nat) :
    (Front3D.init lines root fields ns false rand cfg).samples =
      (Front3D.init lines root fields ns false rand' cfg).samples ∧
    List.Perm (Front3D.init lines root fields none true rand cfg).samples
      (load_and_filter_file_list lines) ∧
    (Front3D.init lines root fields none true rand cfg).samples.length =
      (load_and_filter_file_list lines).length := by
  refine ⟨rfl, ?_, ?_⟩
  · exact pyShuffle_perm rand (load_and_filter_file_list lines)
  · exact (pyShuffle_perm rand (load_and_filter_file_list lines)).length_eq

theorem getitem_init_err (lines : List String) (root : String)
    (fields : Option (List String)) (ns : Option Int) (sh : Bool)
    (rand : Nat → Nat) (cfg : Config) (i : Nat) (p : String)
    (hp : (Front3D.init lines root fields ns sh rand cfg).samples.get? i = some p)
    (hsplit : 2 ≤ (pySplit p '/').length) :
    getitem (Front3D.init lines root fields ns sh rand cfg) i =
      Except.error (match fields with
        | some _ => PyErr.attributeError
        | none => PyErr.typeError) := by
  have h0lt : 0 < (pySplit p '/').length := by omega
  have h1lt : 1 < (pySplit p '/').length := by omega
  have h0 : (pySplit p '/').get? 0 = some ((pySplit p '/').get ⟨0, h0lt⟩) :=
    List.get?_eq_get h0lt
  have h1 : (pySplit p '/').get? 1 = some ((pySplit p '/').get ⟨1, h1lt⟩) :=
    List.get?_eq_get h1lt
  cases fields with
  | none =>
    show getitem (Front3D.init lines root none ns sh rand cfg) i =
      Except.error PyErr.typeError
    unfold getitem
    rw [hp]
    simp only []
    rw [h0]
    simp only []
    rw [h1]
    rfl
  | some l =>
    show getitem (Front3D.init lines root (some l) ns sh rand cfg) i =
      Except.error PyErr.attributeError
    unfold getitem
    rw [hp]
    simp only []
    rw [h0]
    simp only []
    rw [h1]
    rfl

/-- C1 counterexample: for a dataset constructed with the selection list
`["color"]` and a valid index, `get_item` does not return a record at all
(so in particular not one containing exactly `index`, `name` and the
selection-list fields): it fails with the attribute-lookup error, because
`__init__` never assigned `self.fields`. -/
theorem C1_counterexample :
    getitem (Front3D.init ["00001_00/0001"] "data" (some ["color"]) none false
      (fun n => n) cfg0) 0 = Except.error PyErr.attributeError ∧
    exceptIsOk (getitem (Front3D.init ["00001_00/0001"] "data" (some ["color"]) none false
      (fun n => n) cfg0) 0) = false := ⟨rfl, rfl⟩

/-- C1 (amended): for every dataset produced by `__init__` and every valid
index whose sample string contains `/`, `get_item` never returns a record:
it fails at the first field-membership test, with an attribute-lookup error
when the dataset was constructed with a non-`None` selection list (the
attribute was never assigned) and with a membership-on-`None` error when it
was constructed with `None`. -/
theorem C1_getitem_never_returns_record (lines : List String) (root : String)
    (fields : Option (List String)) (ns : Option Int) (sh : Bool)
    (rand : Nat → Nat) (cfg : Config) (i : Nat) (p : String)
    (hp : (Front3D.init lines root fields ns sh rand cfg).samples.get? i = some p)
    (hsplit : 2 ≤ (pySplit p '/').length) :
    getitem (Front3D.init lines root fields ns sh rand cfg) i =
      Except.error (match fields with
        | some _ => PyErr.attributeError
        | none => PyErr.typeError) ∧
    ∀ r : FieldList, ¬ getitem (Front3D.init lines root fields ns sh rand cfg) i =
      Except.ok r := by
  have h := getitem_init_err lines root fields ns sh rand cfg i p hp hsplit
  refine ⟨h, ?_⟩
  intro r hr
  rw [h] at hr
  cases fields with
  | none => cases hr
  | some l => cases hr

/-- C1 witness: the amended statement at a concrete dataset. -/
theorem C1_witness :
    getitem (Front3D.init ["00001_00/0001", "00001_00/0002"] "data"
      (some ["color", "depth"]) none false (fun n => n) cfg0) 1 =
      Except.error PyErr.attributeError :=
  (C1_getitem_never_returns_record ["00001_00/0001", "00001_00/0002"] "data"
    (some ["color", "depth"]) none false (fun n => n) cfg0 1 "00001_00/0002"
    rfl (by decide)).1

/-- C10: `__init__` assigns `self.fields` only when the `fields` argument
is `None` (and then stores `None`); with a non-`None` selection list the
attribute stays unset, so every retrieval at a valid index with a
`/`-separated sample string fails with the attribute-lookup error at the
first field-membership test, and with `fields = None` it fails there with
the membership-on-`None` `TypeError` — in both cases before any data field
is added to the record. -/
theorem C10_fields_assignment (lines : List String) (root : String)
    (l : List String) (ns : Option Int) (sh : Bool) (rand : Nat → Nat)
    (cfg : Config) (i : Nat) (p : String)
    (hp : (Front3D.init lines root (some l) ns sh rand cfg).samples.get? i = some p)
    (hsplit : 2 ≤ (pySplit p '/').length) :
    (Front3D.init lines root (some l) ns sh rand cfg).fields = PyAttr.unset ∧
    (Front3D.init lines root none ns sh rand cfg).fields = PyAttr.set none ∧
    getitem (Front3D.init lines root (some l) ns sh rand cfg) i =
      Except.error PyErr.attributeError ∧
    getitem (Front3D.init lines root none ns sh rand cfg) i =
      Except.error PyErr.typeError := by
  have hp2 : (Front3D.init lines root none ns sh rand cfg).samples.get? i = some p := hp
  exact ⟨rfl, rfl,
    getitem_init_err lines root (some l) ns sh rand cfg i p hp hsplit,
    getitem_init_err lines root none ns sh rand cfg i p hp2 hsplit⟩

/-- C10 witness at a concrete dataset and index. -/
theorem C10_witness :
    (Front3D.init ["00001_00/0001"] "data" (some ["geometry"]) none false
      (fun n => n) cfg0).fields = PyAttr.unset ∧
    getitem (Front3D.init ["00001_00/0001"] "data" none none false
      (fun n => n) cfg0) 0 = Except.error PyErr.typeError := by
  have h := C10_fields_assignment ["00001_00/0001"] "data" ["geometry"] none false
    (fun n => n) cfg0 0 "00001_00/0001" rfl (by decide)
  exact ⟨h.1, h.2.2.2⟩

/-- C2: the line-98 field-selection check is an operator-precedence pattern
(`("semantic3d") or ("instance3d" in self.fields)`) whose truthy string
literal makes the whole condition true for every field list, so the
sparse-segmentation decode of step 5 executes unconditionally once that
point is reached, independent of whether `semantic3d` or `instance3d` is
present.  Observable consequence: even with an empty selection list (and
the stock transform table) retrieval still runs the block, which sets
`needs_weighting` and reaches the weighting lookup. -/
theorem C2_decode_unconditional (s : Front3DState) (cfg : Config) (i : Nat)
    (p : String)
    (hf : s.fields = PyAttr.set (some []))
    (htab : s.transforms = define_transformations cfg)
    (hp : s.samples.get? i = some p)
    (hsplit : 2 ≤ (pySplit p '/').length) :
    (∀ fl : List String, segGate fl = true) ∧
    getitem s i = Except.error (PyErr.keyError "weighting") := by
  refine ⟨segGate_eq_true, ?_⟩
  obtain ⟨a1, a2, a3, a4, a5, a6, a7, a8, a9, a10, a11, a12, a13, a14, a15, a16⟩ := s
  dsimp only at hf htab hp
  subst hf
  subst htab
  have h0lt : 0 < (pySplit p '/').length := by omega
  have h1lt : 1 < (pySplit p '/').length := by omega
  have h0 : (pySplit p '/').get? 0 = some ((pySplit p '/').get ⟨0, h0lt⟩) :=
    List.get?_eq_get h0lt
  have h1 : (pySplit p '/').get? 1 = some ((pySplit p '/').get ⟨1, h1lt⟩) :=
    List.get?_eq_get h1lt
  unfold getitem
  dsimp only
  rw [hp]
  simp only []
  rw [h0]
  simp only []
  rw [h1]
  rfl

/-- C2 witness at a concrete state with an empty selection list. -/
theorem C2_witness :
    segGate [] = true ∧
    getitem (exState (some [])) 0 = Except.error (PyErr.keyError "weighting") := by
  have h := C2_decode_unconditional (exState (some [])) cfg0 0 "00001_00/0001"
    rfl rfl rfl (by decide)
  exact ⟨h.1 [], h.2⟩

/-- C5 evidence: the transform table built by `define_transformations`
never installs a `"weighting"` key, so the weighting step — always
triggered when `geometry` is requested — fails at the
`self.transforms["weighting"]` lookup instead of decoding, transforming
and storing the weighting volume. -/
theorem C5_weighting_key_missing :
    (∀ cfg : Config, getTransform (define_transformations cfg) "weighting" =
      Except.error (PyErr.keyError "weighting")) ∧
    getitem (exState (some ["geometry"])) 0 =
      Except.error (PyErr.keyError "weighting") :=
  ⟨fun _ => rfl, rfl⟩

theorem spatialShape_resize_binarize (sh : String → Rat → List Nat) (q t : Rat)
    (g : Val) :
    spatialShape sh (applyT none (T.compose [TPrim.resizeTrilinear q, TPrim.toBinaryMask t]) g) =
      (spatialShape sh g).map (List.map (scaleDim q)) := rfl

theorem spatialShape_binarize (sh : String → Rat → List Nat) (t : Rat) (g : Val) :
    spatialShape sh (applyT none (T.prim (TPrim.toBinaryMask t)) g) =
      spatialShape sh g := rfl

theorem scaleDim_half (d : Nat) : scaleDim (1/2) d = d / 2 := by
  unfold scaleDim
  rw [mul_one_div, show ((2 : Rat)) = ((2 : Nat) : Rat) by norm_num]
  exact Nat.floor_div_eq_div d 2

theorem scaleDim_quarter (d : Nat) : scaleDim (1/4) d = d / 4 := by
  unfold scaleDim
  rw [mul_one_div, show ((4 : Rat)) = ((4 : Nat) : Rat) by norm_num]
  exact Nat.floor_div_eq_div d 4

theorem spatialShape_half (sh : String → Rat → List Nat) (g : Val) :
    spatialShape sh (applyT none (T.compose [TPrim.resizeTrilinear (1/2), TPrim.toBinaryMask 6]) g) =
      (spatialShape sh g).map (List.map (fun d => d / 2)) := by
  have hfun : scaleDim (1/2) = fun d => d / 2 := funext scaleDim_half
  rw [spatialShape_resize_binarize, hfun]

theorem spatialShape_quarter (sh : String → Rat → List Nat) (g : Val) :
    spatialShape sh (applyT none (T.compose [TPrim.resizeTrilinear (1/4), TPrim.toBinaryMask 8]) g) =
      (spatialShape sh g).map (List.map (fun d => d / 4)) := by
  have hfun : scaleDim (1/4) = fun d => d / 4 := funext scaleDim_quarter
  rw [spatialShape_resize_binarize, hfun]

/-- C4: whenever `geometry` is requested and retrieval returns a record,
the three occupancy fields are all derived from the same decoded-and-
transformed geometry tensor `g` BEFORE the configured truncation radius is
applied to the geometry field itself (the `geometry` field stores
`ToTDF(truncation)` of that same `g`): `occupancy_256` by direct
binarization (keeping the full decoded grid shape), `occupancy_128` by
trilinear resize at scale 1/2 then binarization (halving every spatial
axis), `occupancy_64` by trilinear resize at scale 1/4 then binarization
(quartering every spatial axis) — each a deterministic function of `g`.
The transform hypotheses are exactly the entries `define_transformations`
installs for these keys. -/
theorem C4_occupancy_pyramid (s : Front3DState) (cfg : Config) (i : Nat)
    (fl : List String) (rec : FieldList)
    (hf : s.fields = PyAttr.set (some fl))
    (hgeom : fl.contains "geometry" = true)
    (hG : getTransform s.transforms "geometry" =
      Except.ok (T.compose [TPrim.toTensor3d "float", TPrim.unsqueeze 0, TPrim.toTDF 12]))
    (h256 : getTransform s.transforms "occupancy_256" =
      Except.ok (T.prim (TPrim.toBinaryMask cfg.truncation)))
    (h128 : getTransform s.transforms "occupancy_128" =
      Except.ok (T.compose [TPrim.resizeTrilinear (1/2), TPrim.toBinaryMask 6]))
    (h64 : getTransform s.transforms "occupancy_64" =
      Except.ok (T.compose [TPrim.resizeTrilinear (1/4), TPrim.toBinaryMask 8]))
    (hTr : getTransform s.transforms "geometry_truncate" =
      Except.ok (T.prim (TPrim.toTDF cfg.truncation)))
    (hok : getitem s i = Except.ok rec) :
    ∃ g path,
      g = applyT none (T.compose [TPrim.toTensor3d "float", TPrim.unsqueeze 0, TPrim.toTDF 12])
        (Val.sdf path 12) ∧
      rec.getField "occupancy_256" =
        some (applyT none (T.prim (TPrim.toBinaryMask cfg.truncation)) g) ∧
      rec.getField "occupancy_128" =
        some (applyT none (T.compose [TPrim.resizeTrilinear (1/2), TPrim.toBinaryMask 6]) g) ∧
      rec.getField "occupancy_64" =
        some (applyT none (T.compose [TPrim.resizeTrilinear (1/4), TPrim.toBinaryMask 8]) g) ∧
      rec.getField "geometry" =
        some (applyT none (T.prim (TPrim.toTDF cfg.truncation)) g) ∧
      (∀ sh : String → Rat → List Nat,
        spatialShape sh (applyT none (T.prim (TPrim.toBinaryMask cfg.truncation)) g) =
          spatialShape sh g ∧
        spatialShape sh (applyT none (T.compose [TPrim.resizeTrilinear (1/2), TPrim.toBinaryMask 6]) g) =
          (spatialShape sh g).map (List.map (fun d => d / 2)) ∧
        spatialShape sh (applyT none (T.compose [TPrim.resizeTrilinear (1/4), TPrim.toBinaryMask 8]) g) =
          (spatialShape sh g).map (List.map (fun d => d / 4))) := by
  obtain ⟨p, scene_id, image_id, fl0, s1, s2, s3, s4, nw1, s5, nw2,
    hp, hsc, him, hf0, hc1, hc2, hc3, hc4, hc5, hc6⟩ := getitem_ok_elim hok
  rw [hf] at hf0
  injection hf0 with hf1
  injection hf1 with hf2
  subst hf2
  obtain ⟨tg, t256, t128, t64, tt, e1, e2, e3, e4, e5, hb, hs4⟩ :=
    step_geometry_ok_elim hgeom hc4
  rw [hG] at e1
  injection e1 with e1'
  subst e1'
  rw [h256] at e2
  injection e2 with e2'
  subst e2'
  rw [h128] at e3
  injection e3 with e3'
  subst e3'
  rw [h64] at e4
  injection e4 with e4'
  subst e4'
  rw [hTr] at e5
  injection e5 with e5'
  subst e5'
  have w256 := (step_weighting_preserves hc6 "occupancy_256" (by decide) (by decide)
    (by decide)).trans (step_segmentation_preserves hc5 "occupancy_256" (by decide)
    (by decide) (by decide) (by decide) (by decide) (by decide))
  have w128 := (step_weighting_preserves hc6 "occupancy_128" (by decide) (by decide)
    (by decide)).trans (step_segmentation_preserves hc5 "occupancy_128" (by decide)
    (by decide) (by decide) (by decide) (by decide) (by decide))
  have w64 := (step_weighting_preserves hc6 "occupancy_64" (by decide) (by decide)
    (by decide)).trans (step_segmentation_preserves hc5 "occupancy_64" (by decide)
    (by decide) (by decide) (by decide) (by decide) (by decide))
  have wg := (step_weighting_preserves hc6 "geometry" (by decide) (by decide)
    (by decide)).trans (step_segmentation_preserves hc5 "geometry" (by decide)
    (by decide) (by decide) (by decide) (by decide) (by decide))
  rw [hs4] at w256 w128 w64 wg
  rw [getField_addField_ne _ _ _ _ (by decide), getField_addField_ne _ _ _ _ (by decide),
    getField_addField_ne _ _ _ _ (by decide), getField_addField_ne _ _ _ _ (by decide),
    getField_addField_self] at w256
  rw [getField_addField_ne _ _ _ _ (by decide), getField_addField_ne _ _ _ _ (by decide),
    getField_addField_ne _ _ _ _ (by decide), getField_addField_self] at w128
  rw [getField_addField_ne _ _ _ _ (by decide), getField_addField_ne _ _ _ _ (by decide),
    getField_addField_self] at w64
  rw [getField_addField_ne _ _ _ _ (by decide), getField_addField_self] at wg
  refine ⟨applyT none (T.compose [TPrim.toTensor3d "float", TPrim.unsqueeze 0, TPrim.toTDF 12])
    (Val.sdf (scenePath s.dataset_root_path scene_id ("geometry_" ++ image_id ++ ".df")) 12),
    scenePath s.dataset_root_path scene_id ("geometry_" ++ image_id ++ ".df"),
    rfl, w256, w128, w64, wg, ?_⟩
  intro sh
  exact ⟨spatialShape_binarize sh cfg.truncation _,
    spatialShape_half sh _, spatialShape_quarter sh _⟩

/-- The record retrieval returns on `okState ["geometry"]` (whose table
additionally resolves the `"weighting"` key, so retrieval completes). -/
def recG : FieldList :=
  (getitem (okState ["geometry"]) 0).toOption.getD (FieldList.empty (320, 240))

/-- C4 witness: the occupancy-pyramid statement at a concrete state on
which retrieval returns a record. -/
theorem C4_witness :
    ∃ g path,
      g = applyT none (T.compose [TPrim.toTensor3d "float", TPrim.unsqueeze 0, TPrim.toTDF 12])
        (Val.sdf path 12) ∧
      recG.getField "occupancy_256" =
        some (applyT none (T.prim (TPrim.toBinaryMask cfg0.truncation)) g) ∧
      recG.getField "occupancy_128" =
        some (applyT none (T.compose [TPrim.resizeTrilinear (1/2), TPrim.toBinaryMask 6]) g) ∧
      recG.getField "occupancy_64" =
        some (applyT none (T.compose [TPrim.resizeTrilinear (1/4), TPrim.toBinaryMask 8]) g) ∧
      recG.getField "geometry" =
        some (applyT none (T.prim (TPrim.toTDF cfg0.truncation)) g) ∧
      (∀ sh : String → Rat → List Nat,
        spatialShape sh (applyT none (T.prim (TPrim.toBinaryMask cfg0.truncation)) g) =
          spatialShape sh g ∧
        spatialShape sh (applyT none (T.compose [TPrim.resizeTrilinear (1/2), TPrim.toBinaryMask 6]) g) =
          (spatialShape sh g).map (List.map (fun d => d / 2)) ∧
        spatialShape sh (applyT none (T.compose [TPrim.resizeTrilinear (1/4), TPrim.toBinaryMask 8]) g) =
          (spatialShape sh g).map (List.map (fun d => d / 4))) :=
  C4_occupancy_pyramid (okState ["geometry"]) cfg0 0 ["geometry"] recG
    rfl rfl rfl rfl rfl rfl rfl rfl

/-- C9: in every retrieval that returns a record, the stored
`weighting3d_64` field equals the stored `weighting3d_128` field, because
source line 129 applies the transform looked up under the key
`"weighting3d_128"` to the same full-resolution weighting volume for both
fields; in the table built by `define_transformations` that key holds the
half-scale trilinear resize, while the quarter-scale transform registered
under `"weighting3d_64"` is never the one applied. -/
theorem C9_weighting64_eq_128 (s : Front3DState) (i : Nat) (rec : FieldList)
    (hok : getitem s i = Except.ok rec) :
    (rec.getField "weighting3d_64" = rec.getField "weighting3d_128" ∧
     ∃ t w, getTransform s.transforms "weighting3d_128" = Except.ok t ∧
       rec.getField "weighting3d_64" = some (applyT none t w) ∧
       rec.getField "weighting3d_128" = some (applyT none t w)) ∧
    (∀ cfg : Config,
      getTransform (define_transformations cfg) "weighting3d_128" =
        Except.ok (T.prim (TPrim.resizeTrilinear (1/2))) ∧
      getTransform (define_transformations cfg) "weighting3d_64" =
        Except.ok (T.prim (TPrim.resizeTrilinear (1/4)))) := by
  refine ⟨?_, fun cfg => ⟨rfl, rfl⟩⟩
  obtain ⟨p, scene_id, image_id, fl0, s1, s2, s3, s4, nw1, s5, nw2,
    hp, hsc, him, hf0, hc1, hc2, hc3, hc4, hc5, hc6⟩ := getitem_ok_elim hok
  obtain ⟨sA, hA, hB, hb⟩ := step_segmentation_ok_elim hc5
  subst hb
  rw [Bool.or_true] at hc6
  obtain ⟨tw, t128, e1, e2, hrec⟩ := step_weighting_ok_elim hc6
  subst hrec
  constructor
  · rw [getField_addField_self, getField_addField_ne _ _ _ _ (by decide),
      getField_addField_self]
  · exact ⟨t128, applyT none tw (Val.sdf (scenePath s.dataset_root_path scene_id
      ("weighting_" ++ image_id ++ ".df")) 1), e2,
      by rw [getField_addField_self],
      by rw [getField_addField_ne _ _ _ _ (by decide), getField_addField_self]⟩

/-- The record retrieval returns on `okState []`. -/
def recW : FieldList :=
  (getitem (okState []) 0).toOption.getD (FieldList.empty (320, 240))

/-- C9 witness: the stored `weighting3d_64` and `weighting3d_128` fields of
a concrete returned record coincide. -/
theorem C9_witness :
    recW.getField "weighting3d_64" = recW.getField "weighting3d_128" :=
  (C9_weighting64_eq_128 (okState []) 0 recW rfl).1.1

/-- C6: if `instance3d` is requested but `instance2d` is not, retrieval
fails with the missing-field lookup error for `instance2d` when it tries to
read the `instance_locations` sub-field (first conjunct, for the stock
transform table); when both are requested, `instance2d` is processed first,
so the lookup succeeds and the stored `instance3d` field is built with the
`instance_locations` sub-field of the stored `instance2d` record as its
remapping table (second conjunct). -/
theorem C6_instance3d_ordering (s : Front3DState) (cfg : Config) (i : Nat)
    (p : String) (fl : List String)
    (hf : s.fields = PyAttr.set (some fl))
    (h3 : fl.contains "instance3d" = true)
    (hp : s.samples.get? i = some p)
    (hsplit : 2 ≤ (pySplit p '/').length) :
    (fl.contains "instance2d" = false →
      s.transforms = define_transformations cfg →
      getitem s i = Except.error (PyErr.keyError "instance2d")) ∧
    (∀ rec : FieldList, fl.contains "instance2d" = true →
      getitem s i = Except.ok rec →
      ∃ v t path,
        rec.getField "instance2d" = some v ∧
        getTransform s.transforms "instance3d" = Except.ok t ∧
        rec.getField "instance3d" =
          some (applyT (some (getSubfield v "instance_locations")) t
            (Val.instDense path 1000 0))) := by
  have h0lt : 0 < (pySplit p '/').length := by omega
  have h1lt : 1 < (pySplit p '/').length := by omega
  have h0 : (pySplit p '/').get? 0 = some ((pySplit p '/').get ⟨0, h0lt⟩) :=
    List.get?_eq_get h0lt
  have h1 : (pySplit p '/').get? 1 = some ((pySplit p '/').get ⟨1, h1lt⟩) :=
    List.get?_eq_get h1lt
  constructor
  · intro h2 htab
    unfold getitem
    rw [hp]
    simp only []
    rw [h0]
    simp only []
    rw [h1]
    simp only []
    rw [hf]
    simp only []
    obtain ⟨r1, hr1⟩ := step_color_total htab ((pySplit p '/').get ⟨0, h0lt⟩)
      ((pySplit p '/').get ⟨1, h1lt⟩) fl
      (((FieldList.empty s.image_size).addField "index" (Val.pyInt i)).addField
        "name" (Val.pyStr p))
    obtain ⟨r2, hr2⟩ := step_depth_total htab ((pySplit p '/').get ⟨0, h0lt⟩)
      ((pySplit p '/').get ⟨1, h1lt⟩) fl r1
    have hr3 : step_instance2d s ((pySplit p '/').get ⟨0, h0lt⟩)
        ((pySplit p '/').get ⟨1, h1lt⟩) fl r2 = Except.ok r2 := by
      unfold step_instance2d
      rw [h2]
      rfl
    obtain ⟨r4, b4, hr4⟩ := step_geometry_total htab ((pySplit p '/').get ⟨0, h0lt⟩)
      ((pySplit p '/').get ⟨1, h1lt⟩) fl r2
    obtain ⟨rA, hrA⟩ := step_semantic3d_total htab fl
      (Val.semDense (scenePath s.dataset_root_path ((pySplit p '/').get ⟨0, h0lt⟩)
        ("segmentation_" ++ ((pySplit p '/').get ⟨1, h1lt⟩) ++ ".mapped.sem")) 1000 0) r4
    have n0 : (((FieldList.empty s.image_size).addField "index" (Val.pyInt i)).addField
        "name" (Val.pyStr p)).getField "instance2d" = none := rfl
    have n1 : r1.getField "instance2d" = none :=
      (step_color_preserves hr1 _ (by decide)).trans n0
    have n2 : r2.getField "instance2d" = none :=
      (step_depth_preserves hr2 _ (by decide)).trans n1
    have n4 : r4.getField "instance2d" = none :=
      (step_geometry_preserves hr4 _ (by decide) (by decide) (by decide) (by decide)
        (by decide)).trans n2
    have nA : rA.getField "instance2d" = none :=
      (step_semantic3d_preserves hrA _ (by decide) (by decide) (by decide)).trans n4
    have hseg : step_segmentation s ((pySplit p '/').get ⟨0, h0lt⟩)
        ((pySplit p '/').get ⟨1, h1lt⟩) fl r4 =
        Except.error (PyErr.keyError "instance2d") := by
      unfold step_segmentation
      rw [if_pos (segGate_eq_true fl)]
      simp only []
      rw [hrA]
      simp only []
      rw [step_instance3d_missing h3 nA]
    rw [hr1]
    simp only []
    rw [hr2]
    simp only []
    rw [hr3]
    simp only []
    rw [hr4]
    simp only []
    rw [hseg]
  · intro rec h2 hok
    obtain ⟨p', scene_id, image_id, fl0, s1, s2, s3, s4, nw1, s5, nw2,
      hp', hsc, him, hf0, hc1, hc2, hc3, hc4, hc5, hc6⟩ := getitem_ok_elim hok
    rw [hf] at hf0
    injection hf0 with hf1
    injection hf1 with hf2
    subst hf2
    obtain ⟨sA, hA, hB, hb⟩ := step_segmentation_ok_elim hc5
    obtain ⟨inst2d, t, t128, t64, eI, e1, e2, e3, hs5⟩ := step_instance3d_ok_elim h3 hB
    refine ⟨inst2d, t, scenePath s.dataset_root_path scene_id
      ("segmentation_" ++ image_id ++ ".mapped.sem"), ?_, e1, ?_⟩
    · have w := step_weighting_preserves hc6 "instance2d" (by decide) (by decide) (by decide)
      rw [w, hs5]
      rw [getField_addField_ne _ _ _ _ (by decide), getField_addField_ne _ _ _ _ (by decide),
        getField_addField_ne _ _ _ _ (by decide)]
      exact eI
    · have w := step_weighting_preserves hc6 "instance3d" (by decide) (by decide) (by decide)
      rw [w, hs5]
      rw [getField_addField_ne _ _ _ _ (by decide), getField_addField_ne _ _ _ _ (by decide),
        getField_addField_self]

/-- The record retrieval returns on `okState ["instance2d", "instance3d"]`. -/
def recI : FieldList :=
  (getitem (okState ["instance2d", "instance3d"]) 0).toOption.getD
    (FieldList.empty (320, 240))

/-- C6 witness: at a concrete state, requesting `instance3d` without
`instance2d` fails with the `instance2d` lookup error, and requesting both
succeeds with the remapping taken from the stored `instance2d` record. -/
theorem C6_witness :
    getitem (exState (some ["instance3d"])) 0 =
      Except.error (PyErr.keyError "instance2d") ∧
    ∃ v t path,
      recI.getField "instance2d" = some v ∧
      getTransform (okState ["instance2d", "instance3d"]).transforms "instance3d" =
        Except.ok t ∧
      recI.getField "instance3d" =
        some (applyT (some (getSubfield v "instance_locations")) t
          (Val.instDense path 1000 0)) :=
  ⟨(C6_instance3d_ordering (exState (some ["instance3d"])) cfg0 0 "00001_00/0001"
      ["instance3d"] rfl (by decide) rfl (by decide)).1 (by decide) rfl,
   (C6_instance3d_ordering (okState ["instance2d", "instance3d"]) cfg0 0 "00001_00/0001"
      ["instance2d", "instance3d"] rfl (by decide) rfl (by decide)).2 recI (by decide) rfl⟩
